import Mathlib

/-!
Shallow embedding of the realtime voice session controller in
`src/components/woof-ui/realtime-voice-input.tsx`.

Modelling conventions:
* React state variables and refs become fields of `SessionState`; the
  flag-then-apply-in-effect latches (`shouldProcessResponseRef`,
  `shouldStopListeningRef`) are folded into direct state transitions, per the
  single-threaded event model.
* Timers become an explicit `responseTimer : Option TimerKind` slot (the code
  has a single `responseEndTimeoutRef`), fired by a scheduler action.
* The host callbacks `onMessage` / `onStart` / `onStop` are assumed wired; their
  invocations are logged in `responseDeliveries` / `seedDeliveries` /
  `onStartCount` / `onStopCount`.
* JavaScript truthiness of string fields (empty string is falsy) is modelled by
  `truthy`.
* The two regex replaces in `sendCompleteResponse` are implemented character by
  character with JS regex semantics (leftmost match, lazy group with greedy
  backreference, dot excluding line terminators).
-/

/-- Truthiness of an optional string field: a missing field or the empty string
is falsy in JavaScript, anything else passes through. -/
def truthy : Option String → Option String
  | some s => if s = "" then none else some s
  | none => none

/-- Boolean prefix test on character lists (self-contained). -/
def listIsPrefix : List Char → List Char → Bool
  | [], _ => true
  | _ :: _, [] => false
  | a :: as, b :: bs => a == b && listIsPrefix as bs

/-- Boolean infix (substring) test on character lists, used for
`String.prototype.includes`. -/
def listIsInfix (needle : List Char) : List Char → Bool
  | [] => needle.isEmpty
  | c :: rest => listIsPrefix needle (c :: rest) || listIsInfix needle rest

/-- JavaScript `hay.includes(needle)`. -/
def strContains (hay needle : String) : Bool :=
  listIsInfix needle.toList hay.toList

/-- Match of the regex `\x7b"[^"]+"\x7d` at the head of the list (the pattern of
the JSON-artifact strip in `sendCompleteResponse`, line 301). Returns the
remainder after the match when the head matches. -/
def jsonMatch : List Char → Option (List Char)
  | '{' :: '"' :: tl =>
    if (tl.takeWhile (fun c => c ≠ '"')).isEmpty then none
    else
      match tl.drop (tl.takeWhile (fun c => c ≠ '"')).length with
      | '"' :: '}' :: rest => some rest
      | _ => none
  | _ => none

/-- Global replacement of `\x7b"[^"]+"\x7d` by the empty string: scan left to
right, consume a match where one starts, otherwise keep the character. The
fuel argument (initialized to the list length, which every step strictly
consumes) makes the recursion structural. -/
def stripJsonFuel : Nat → List Char → List Char
  | 0, _ => []
  | _ + 1, [] => []
  | fuel + 1, c :: tl =>
    match jsonMatch (c :: tl) with
    | some rest => stripJsonFuel fuel rest
    | none => c :: stripJsonFuel fuel tl

/-- Entry point of the JSON-artifact strip. -/
def stripJsonAux (l : List Char) : List Char :=
  stripJsonFuel l.length l

/-- Number of consecutive copies of `g` at the head of `l` (the greedy `\1+`
part of the duplicate-collapsing regex), with the same fuel discipline. -/
def countRepsFuel : Nat → List Char → List Char → Nat
  | 0, _, _ => 0
  | fuel + 1, g, l =>
    if !g.isEmpty && listIsPrefix g l then countRepsFuel fuel g (l.drop g.length) + 1
    else 0

/-- Entry point of the repetition counter. -/
def countReps (g l : List Char) : Nat :=
  countRepsFuel l.length g l

/-- Success of the lazy group of `(.+?)\1+` with group length `k` at the head of
`l`: the group is nonempty, contains no line terminator (JS `.`), and is
immediately followed by at least one further copy of itself. -/
def dupOk (l : List Char) (k : Nat) : Bool :=
  decide (0 < k) && decide (2 * k ≤ l.length) &&
    !((l.take k).any (fun c => c == '\n' || c == '\r')) &&
    listIsPrefix (l.take k) (l.drop k)

/-- Smallest group length accepted by the lazy quantifier at this position. -/
def firstDupLen (l : List Char) : Option Nat :=
  ((List.range l.length).map (fun i => i + 1)).find? (dupOk l)

/-- Global replacement of `(.+?)\1+` by `$1`: at each position take the smallest
nonempty group immediately repeated at least once, keep one copy and drop the
repetitions, then continue after the match; otherwise advance one character. -/
def collapseFuel : Nat → List Char → List Char
  | 0, _ => []
  | _ + 1, [] => []
  | fuel + 1, c :: tl =>
    match firstDupLen (c :: tl) with
    | none => c :: collapseFuel fuel tl
    | some k =>
      (c :: tl).take k ++
        collapseFuel fuel
          ((c :: tl).drop (k * countReps ((c :: tl).take k) ((c :: tl).drop k) + k))

/-- Entry point of the duplicate collapse. -/
def collapseAux (l : List Char) : List Char :=
  collapseFuel l.length l

/-- Whitespace class of JavaScript `String.prototype.trim` (ASCII part). -/
def isJsSpace (c : Char) : Bool :=
  c == ' ' || c == '\t' || c == '\n' || c == '\r' || c == '\x0b' || c == '\x0c'

/-- JavaScript `trim`: strip leading and trailing whitespace. -/
def trimList (l : List Char) : List Char :=
  ((l.dropWhile isJsSpace).reverse.dropWhile isJsSpace).reverse

/-- Cleanup applied by `sendCompleteResponse` (lines 297-302): trim, strip
JSON-like brace-quoted snippets, collapse immediately repeated substrings. -/
def cleanMessage (s : String) : String :=
  ⟨collapseAux (stripJsonAux (trimList s.toList))⟩

/-- Shape of `event.part` (only the fields the handler reads). -/
structure EvPart where
  transcript : Option String := none
  type : Option String := none
deriving DecidableEq, Repr

/-- Shape of one element of `event.item.content` when it is an array, or of the
whole `event.item.content` when it is a direct object. -/
structure ContentItem where
  text : Option String := none
  transcript : Option String := none
deriving DecidableEq, Repr

/-- Payload of `event.item.content`: either an array or a direct object. -/
inductive ItemContent where
  | arr (items : List ContentItem)
  | obj (item : ContentItem)
deriving DecidableEq, Repr

/-- Shape of `event.item`. -/
structure EvItem where
  role : Option String := none
  content : Option ItemContent := none
deriving DecidableEq, Repr

/-- Shape of one element of `event.response.output`. -/
structure OutputItem where
  text : Option String := none
deriving DecidableEq, Repr

/-- Inbound data-channel event, restricted to the fields
`handleDataChannelMessage` (lines 319-421) reads. `responseOutput` stands for
the optional chain `event.response?.output`; `eventId` is carried by real
events but never read by the handler. -/
structure RTCEvent where
  type : Option String := none
  role : Option String := none
  eventId : Option String := none
  transcript : Option String := none
  delta : Option String := none
  text : Option String := none
  part : Option EvPart := none
  responseOutput : Option (List OutputItem) := none
  item : Option EvItem := none
deriving DecidableEq, Repr

/-- Text of a content element: `item.text` if truthy, else `item.transcript`
(lines 343-351 for array elements, 352-356 for a direct object). -/
def contentItemText (ci : ContentItem) : Option String :=
  match truthy ci.text with
  | some t => some t
  | none => truthy ci.transcript

/-- Probe of `event.item.content` (lines 338-357). -/
def itemContentText (e : RTCEvent) : Option String :=
  match e.item with
  | none => none
  | some it =>
    match it.content with
    | none => none
    | some (ItemContent.arr items) => items.findSome? contentItemText
    | some (ItemContent.obj ci) => contentItemText ci

/-- Text extraction in the fixed probe order of lines 328-357: top-level
`transcript`, `delta`, `text`, then `part.transcript`, then
`response.output[0].text`, then `item.content`. First truthy match wins. -/
def extractText (e : RTCEvent) : Option String :=
  match truthy e.transcript with
  | some t => some t
  | none =>
  match truthy e.delta with
  | some t => some t
  | none =>
  match truthy e.text with
  | some t => some t
  | none =>
  match truthy (e.part.bind EvPart.transcript) with
  | some t => some t
  | none =>
  match truthy ((e.responseOutput.bind List.head?).bind OutputItem.text) with
  | some t => some t
  | none => itemContentText e

/-- Classification of a text-bearing event as a user echo (lines 362-365):
`event.type` contains "user", or a top-level or item-level role equals
"user". -/
def isUserEvent (e : RTCEvent) : Bool :=
  (match e.type with
   | some t => strContains t "user"
   | none => false) ||
  e.role == some "user" ||
  (match e.item with
   | some it => it.role == some "user"
   | none => false)

/-- Terminal response markers (lines 397-401). -/
def isTerminalMarker (e : RTCEvent) : Bool :=
  e.type == some "response.end" ||
  e.type == some "conversation.item.create.complete" ||
  (match e.part with
   | some p => p.type == some "final_transcript"
   | none => false)

/-- Kind of the single response-end timeout slot (`responseEndTimeoutRef`):
the one-second silence timer armed on each fragment (line 385) or the 500 ms
grace timer armed on a terminal marker (line 408). -/
inductive TimerKind where
  | silence
  | grace
deriving DecidableEq, Repr

/-- Delay in milliseconds of each timer kind (lines 392 and 415). -/
def timerDelayMs : TimerKind → Nat
  | TimerKind.silence => 1000
  | TimerKind.grace => 500

/-- Maximum recording time in seconds (line 32). -/
def MAX_RECORDING_TIME : Nat := 10

/-- Observable state of the component: React state, refs, and logs of host
callback invocations. `pcRef`/`dcRef`/`mediaRef` record whether the
corresponding ref holds an object; `tracksLive` whether the media tracks are
running; the `...Count` fields count resource releases and host notifications;
`statusHistory`/`timeHistory` log every value ever assigned to
`connectionStatus`/`remainingTime`. -/
structure SessionState where
  isListening : Bool
  isConnecting : Bool
  connectionStatus : String
  statusHistory : List String
  errorMessage : Option String
  remainingTime : Nat
  timeHistory : List Nat
  isProcessingResponse : Bool
  completeResponse : String
  messageAlreadySent : Bool
  processedEventIds : List String
  responseTimer : Option TimerKind
  countdownRunning : Bool
  pcRef : Bool
  dcRef : Bool
  mediaRef : Bool
  tracksLive : Bool
  pcCloseCount : Nat
  dcCloseCount : Nat
  trackStopBatches : Nat
  responseDeliveries : List String
  seedDeliveries : List String
  onStartCount : Nat
  onStopCount : Nat
deriving DecidableEq, Repr

/-- Assignment to `connectionStatus`, logged. -/
def setStatus (st : String) (s : SessionState) : SessionState :=
  { s with connectionStatus := st, statusHistory := s.statusHistory ++ [st] }

/-- Assignment to `remainingTime`, logged. -/
def setTime (t : Nat) (s : SessionState) : SessionState :=
  { s with remainingTime := t, timeHistory := s.timeHistory ++ [t] }

/-- Model of `sendCompleteResponse` (lines 291-316): deliver the cleaned buffer
to the host at most once, gated by `messageAlreadySentRef`; nothing happens if
the cleaned text is empty. The deferred callback (line 309) is folded in. -/
def sendCompleteResponse (s : SessionState) : SessionState :=
  if s.completeResponse ≠ "" ∧ ¬s.messageAlreadySent then
    if cleanMessage s.completeResponse ≠ "" then
      { s with messageAlreadySent := true,
               responseDeliveries := s.responseDeliveries ++ [cleanMessage s.completeResponse],
               completeResponse := "",
               isProcessingResponse := false }
    else s
  else s

/-- Model of `stopRecordingButKeepConnection` (lines 424-445): stop the media
tracks, cancel the countdown, stop listening, reset the countdown display; the
transport refs are untouched. -/
def stopRecordingButKeepConnection (s : SessionState) : SessionState :=
  setTime MAX_RECORDING_TIME
    { s with trackStopBatches := s.trackStopBatches + (if s.mediaRef then 1 else 0),
             tracksLive := if s.mediaRef then false else s.tracksLive,
             countdownRunning := false,
             isListening := false }

/-- Resource-release section of `stopRealtimeSession` (lines 455-488): clear
both timers, stop and null the media stream, close and null the data channel
and the peer connection, stop listening. -/
def releaseResources (s : SessionState) : SessionState :=
  { s with responseTimer := none,
           countdownRunning := false,
           trackStopBatches := s.trackStopBatches + (if s.mediaRef then 1 else 0),
           tracksLive := if s.mediaRef then false else s.tracksLive,
           mediaRef := false,
           dcCloseCount := s.dcCloseCount + (if s.dcRef then 1 else 0),
           dcRef := false,
           pcCloseCount := s.pcCloseCount + (if s.pcRef then 1 else 0),
           pcRef := false,
           isListening := false }

/-- Deferred state reset of `stopRealtimeSession` (lines 491-496): status
"disconnected", countdown display reset, processing flag cleared, `onStop`
notification. -/
def deferredReset (s : SessionState) : SessionState :=
  { setTime MAX_RECORDING_TIME (setStatus "disconnected" s) with
      isProcessingResponse := false,
      onStopCount := s.onStopCount + 1 }

/-- Model of `stopRealtimeSession` (lines 448-500): flush a buffered unsent
response through `sendCompleteResponse`, release all resources, then run the
deferred reset. -/
def stopRealtimeSession (s : SessionState) : SessionState :=
  deferredReset (releaseResources (sendCompleteResponse s))

/-- Body shared by the two response-end timeout callbacks (lines 385-392 and
408-415): send the complete response, then fully close the session when still
listening or connected. -/
def fireBody (s : SessionState) : SessionState :=
  if (sendCompleteResponse s).isListening ||
      (sendCompleteResponse s).connectionStatus == "connected" then
    stopRealtimeSession (sendCompleteResponse s)
  else
    sendCompleteResponse s

/-- Firing of the armed response-end timeout: a no-op when no timeout is
pending, otherwise the slot is consumed and the callback body runs. -/
def fireResponseTimer (s : SessionState) : SessionState :=
  if s.responseTimer.isSome then fireBody { s with responseTimer := none } else s

/-- Text-bearing, non-user branch of the handler (lines 367-393): mark
processing, stop capture if still listening, append the fragment to the buffer,
clear any pending response-end timeout and arm the one-second silence timer. -/
def textStep (s : SessionState) (txt : String) : SessionState :=
  { (if s.isListening then
       stopRecordingButKeepConnection { s with isProcessingResponse := true }
     else
       { s with isProcessingResponse := true }) with
      completeResponse :=
        (if s.isListening then
           stopRecordingButKeepConnection { s with isProcessingResponse := true }
         else
           { s with isProcessingResponse := true }).completeResponse ++ txt,
      responseTimer := some TimerKind.silence }

/-- Model of `handleDataChannelMessage` (lines 319-421) on a parsed event:
extract text, and unless the event is a user echo, run `textStep`;
independently, a terminal marker clears any pending timeout and re-arms the
slot with the 500 ms grace timer. `processedEventIdsRef` is never consulted. -/
def handleDataChannelMessage (s : SessionState) (e : RTCEvent) : SessionState :=
  match extractText e with
  | some txt =>
    if isUserEvent e then
      if isTerminalMarker e then { s with responseTimer := some TimerKind.grace } else s
    else
      if isTerminalMarker e then { textStep s txt with responseTimer := some TimerKind.grace }
      else textStep s txt
  | none =>
    if isTerminalMarker e then { s with responseTimer := some TimerKind.grace } else s

/-- Model of one countdown interval tick (lines 101-110): at `t ≤ 1` the
updater calls `stopRealtimeSession` and returns 0 (the stop's deferred reset
then runs after the 0 is stored); otherwise the time decreases by one. A tick
only occurs while the interval exists. -/
def tickCountdown (s : SessionState) : SessionState :=
  if s.countdownRunning then
    if s.remainingTime ≤ 1 then
      deferredReset (setTime 0 (releaseResources (sendCompleteResponse s)))
    else
      setTime (s.remainingTime - 1) s
  else s

/-- Model of `pc.oniceconnectionstatechange` (lines 150-161): a state in
\x7bfailed, disconnected, closed\x7d surfaces "disconnected" and tears the session
down only when still listening; connected/completed surfaces "connected". -/
def iceConnectionStateChange (s : SessionState) (st : String) : SessionState :=
  if st = "failed" ∨ st = "disconnected" ∨ st = "closed" then
    if (setStatus "disconnected" s).isListening then
      stopRealtimeSession (setStatus "disconnected" s)
    else
      setStatus "disconnected" s
  else if st = "connected" ∨ st = "completed" then setStatus "connected" s
  else s

/-- Stop half of `handleToggleListening` (lines 607-613): the user's click stops
the session when listening or processing (the other branch starts a fresh
session and is outside this single-session model). -/
def userStopClick (s : SessionState) : SessionState :=
  if s.isListening || s.isProcessingResponse then stopRealtimeSession s else s

/-- Scheduled seed utterance of `dc.onopen` (lines 201-209): the initial bark is
delivered to the host through `onMessage` (and echoed to the remote). -/
def seedBarkSend (s : SessionState) (bark : String) : SessionState :=
  { s with seedDeliveries := s.seedDeliveries ++ [bark] }

/-- Scheduler actions of one session: an inbound parsed event, the firing of the
armed response-end timeout, a countdown tick, the user's stop click, component
unmount (lines 616-626), an ICE connection-state change, and the deferred seed
utterance after channel open. -/
inductive Act where
  | inbound (e : RTCEvent)
  | fireTimer
  | tick
  | userStop
  | unmount
  | iceState (st : String)
  | seedBark (bark : String)
deriving DecidableEq, Repr

/-- One scheduler step. -/
def step (s : SessionState) : Act → SessionState
  | Act.inbound e => handleDataChannelMessage s e
  | Act.fireTimer => fireResponseTimer s
  | Act.tick => tickCountdown s
  | Act.userStop => userStopClick s
  | Act.unmount => stopRealtimeSession s
  | Act.iceState st => iceConnectionStateChange s st
  | Act.seedBark b => seedBarkSend s b

/-- Run of a sequence of scheduler actions. -/
def run (s : SessionState) (acts : List Act) : SessionState :=
  acts.foldl step s

/-- State before any session. -/
def idleState : SessionState where
  isListening := false
  isConnecting := false
  connectionStatus := "disconnected"
  statusHistory := []
  errorMessage := none
  remainingTime := MAX_RECORDING_TIME
  timeHistory := []
  isProcessingResponse := false
  completeResponse := ""
  messageAlreadySent := false
  processedEventIds := []
  responseTimer := none
  countdownRunning := false
  pcRef := false
  dcRef := false
  mediaRef := false
  tracksLive := false
  pcCloseCount := 0
  dcCloseCount := 0
  trackStopBatches := 0
  responseDeliveries := []
  seedDeliveries := []
  onStartCount := 0
  onStopCount := 0

/-- Reset prologue of `startRealtimeSession` (lines 127-134): connecting status,
cleared error, cleared event-id set, cleared buffer, countdown reset, cleared
processing and sent flags. -/
def startPrologue (s : SessionState) : SessionState :=
  setTime MAX_RECORDING_TIME
    { setStatus "connecting" { s with isConnecting := true, errorMessage := none } with
        processedEventIds := [],
        completeResponse := "",
        isProcessingResponse := false,
        messageAlreadySent := false }

/-- Session state right after a fully successful start (lines 276-278 plus the
channel-open/ICE-connected status and the countdown effect of lines 96-110):
listening, connected, countdown armed, transport and media owned, `onStart`
notified. -/
def startAfterConnect : SessionState where
  isListening := true
  isConnecting := false
  connectionStatus := "connected"
  statusHistory := ["connecting", "connected"]
  errorMessage := none
  remainingTime := MAX_RECORDING_TIME
  timeHistory := [MAX_RECORDING_TIME]
  isProcessingResponse := false
  completeResponse := ""
  messageAlreadySent := false
  processedEventIds := []
  responseTimer := none
  countdownRunning := true
  pcRef := true
  dcRef := true
  mediaRef := true
  tracksLive := true
  pcCloseCount := 0
  dcCloseCount := 0
  trackStopBatches := 0
  responseDeliveries := []
  seedDeliveries := []
  onStartCount := 1
  onStopCount := 0

/-- Catch block of `startRealtimeSession` (lines 279-287) for the microphone
failure thrown at line 187: error message, connecting cleared, "error" status,
then the guaranteed `stopRealtimeSession`. -/
def mediaFailureCatch (s : SessionState) : SessionState :=
  stopRealtimeSession
    (setStatus "error"
      { s with errorMessage := some "Microphone access failed. Check permissions.",
               isConnecting := false })

/-- Start attempt in which `getUserMedia` fails: the prologue runs, the peer
connection has been created (line 147), media acquisition throws before the
data channel exists, and the catch block finishes the attempt. `onStart`
(line 278) is never reached. -/
def startWithMediaFailure : SessionState :=
  mediaFailureCatch { startPrologue idleState with pcRef := true }

/-- Total number of `onMessage` invocations observed by the host. -/
def onMessageCount (s : SessionState) : Nat :=
  s.seedDeliveries.length + s.responseDeliveries.length

/-- Concatenation, in arrival order, of the text extracted from a list of
events (`""` for an event that carries none). -/
def fragsText : List RTCEvent → String
  | [] => ""
  | e :: rest => (extractText e).getD "" ++ fragsText rest

/-- Invariant behind the deliver-once latch: before `messageAlreadySentRef` is
set no response has been delivered, and never more than one is. -/
def SentInv (s : SessionState) : Prop :=
  (s.messageAlreadySent = false → s.responseDeliveries = []) ∧
    s.responseDeliveries.length ≤ 1

theorem sendCompleteResponse_of_sent {s : SessionState}
    (h : s.messageAlreadySent = true) : sendCompleteResponse s = s := by
  unfold sendCompleteResponse
  rw [if_neg]
  simp [h]

theorem sendCompleteResponse_of_empty {s : SessionState}
    (h : s.completeResponse = "") : sendCompleteResponse s = s := by
  unfold sendCompleteResponse
  rw [if_neg]
  simp [h]

theorem sendCompleteResponse_delivers {s : SessionState}
    (h1 : s.completeResponse ≠ "") (h2 : s.messageAlreadySent = false)
    (h3 : cleanMessage s.completeResponse ≠ "") :
    sendCompleteResponse s =
      { s with messageAlreadySent := true,
               responseDeliveries := s.responseDeliveries ++ [cleanMessage s.completeResponse],
               completeResponse := "",
               isProcessingResponse := false } := by
  unfold sendCompleteResponse
  rw [if_pos ⟨h1, by simp [h2]⟩, if_pos h3]

theorem sendCompleteResponse_cases (s : SessionState) :
    sendCompleteResponse s = s ∨
    sendCompleteResponse s =
      { s with messageAlreadySent := true,
               responseDeliveries := s.responseDeliveries ++ [cleanMessage s.completeResponse],
               completeResponse := "",
               isProcessingResponse := false } := by
  unfold sendCompleteResponse
  split
  · split
    · right
      rfl
    · left
      rfl
  · left
    rfl

@[simp] theorem releaseResources_responseDeliveries (s : SessionState) :
    (releaseResources s).responseDeliveries = s.responseDeliveries := rfl

@[simp] theorem releaseResources_messageAlreadySent (s : SessionState) :
    (releaseResources s).messageAlreadySent = s.messageAlreadySent := rfl

@[simp] theorem releaseResources_seedDeliveries (s : SessionState) :
    (releaseResources s).seedDeliveries = s.seedDeliveries := rfl

@[simp] theorem deferredReset_responseDeliveries (s : SessionState) :
    (deferredReset s).responseDeliveries = s.responseDeliveries := rfl

@[simp] theorem deferredReset_messageAlreadySent (s : SessionState) :
    (deferredReset s).messageAlreadySent = s.messageAlreadySent := rfl

@[simp] theorem deferredReset_seedDeliveries (s : SessionState) :
    (deferredReset s).seedDeliveries = s.seedDeliveries := rfl

@[simp] theorem deferredReset_onStopCount (s : SessionState) :
    (deferredReset s).onStopCount = s.onStopCount + 1 := rfl

@[simp] theorem setStatus_responseDeliveries (st : String) (s : SessionState) :
    (setStatus st s).responseDeliveries = s.responseDeliveries := rfl

@[simp] theorem setStatus_messageAlreadySent (st : String) (s : SessionState) :
    (setStatus st s).messageAlreadySent = s.messageAlreadySent := rfl

@[simp] theorem setStatus_seedDeliveries (st : String) (s : SessionState) :
    (setStatus st s).seedDeliveries = s.seedDeliveries := rfl

@[simp] theorem setStatus_isListening (st : String) (s : SessionState) :
    (setStatus st s).isListening = s.isListening := rfl

@[simp] theorem setStatus_completeResponse (st : String) (s : SessionState) :
    (setStatus st s).completeResponse = s.completeResponse := rfl

@[simp] theorem setTime_responseDeliveries (t : Nat) (s : SessionState) :
    (setTime t s).responseDeliveries = s.responseDeliveries := rfl

@[simp] theorem setTime_messageAlreadySent (t : Nat) (s : SessionState) :
    (setTime t s).messageAlreadySent = s.messageAlreadySent := rfl

@[simp] theorem setTime_seedDeliveries (t : Nat) (s : SessionState) :
    (setTime t s).seedDeliveries = s.seedDeliveries := rfl

theorem stopRealtimeSession_responseDeliveries (s : SessionState) :
    (stopRealtimeSession s).responseDeliveries =
      (sendCompleteResponse s).responseDeliveries := rfl

theorem stopRealtimeSession_messageAlreadySent (s : SessionState) :
    (stopRealtimeSession s).messageAlreadySent =
      (sendCompleteResponse s).messageAlreadySent := rfl

theorem sentInv_send {s : SessionState} (h : SentInv s) :
    SentInv (sendCompleteResponse s) := by
  unfold sendCompleteResponse
  split
  next hc =>
    split
    · constructor
      · intro hf
        simp at hf
      · have hnil : s.responseDeliveries = [] := h.1 (by simpa using hc.2)
        simp [hnil]
    · exact h
  · exact h

theorem sentInv_stop {s : SessionState} (h : SentInv s) :
    SentInv (stopRealtimeSession s) := by
  have h2 := sentInv_send h
  unfold SentInv at h2 ⊢
  simpa [stopRealtimeSession] using h2

theorem handle_frame_fields (s : SessionState) (e : RTCEvent) :
    (handleDataChannelMessage s e).responseDeliveries = s.responseDeliveries
  ∧ (handleDataChannelMessage s e).messageAlreadySent = s.messageAlreadySent
  ∧ (handleDataChannelMessage s e).seedDeliveries = s.seedDeliveries
  ∧ (handleDataChannelMessage s e).connectionStatus = s.connectionStatus
  ∧ (handleDataChannelMessage s e).completeResponse =
      s.completeResponse ++ (if isUserEvent e then "" else (extractText e).getD "")
  ∧ (handleDataChannelMessage s e).onStopCount = s.onStopCount
  ∧ (handleDataChannelMessage s e).onStartCount = s.onStartCount
  ∧ (handleDataChannelMessage s e).pcRef = s.pcRef
  ∧ (handleDataChannelMessage s e).dcRef = s.dcRef
  ∧ (handleDataChannelMessage s e).processedEventIds = s.processedEventIds := by
  unfold handleDataChannelMessage textStep stopRecordingButKeepConnection setTime
  cases hx : extractText e <;> simp [hx] <;> split_ifs <;> simp

theorem handle_text_fields (s : SessionState) (e : RTCEvent) (txt : String)
    (hx : extractText e = some txt) (hu : isUserEvent e = false) :
    (handleDataChannelMessage s e).completeResponse = s.completeResponse ++ txt
  ∧ (handleDataChannelMessage s e).responseTimer.isSome = true := by
  unfold handleDataChannelMessage textStep stopRecordingButKeepConnection setTime
  simp [hx, hu]
  split_ifs <;> simp

theorem sentInv_of_fields {s t : SessionState}
    (hd : t.responseDeliveries = s.responseDeliveries)
    (hm : t.messageAlreadySent = s.messageAlreadySent)
    (h : SentInv s) : SentInv t := by
  unfold SentInv at h ⊢
  rw [hd, hm]
  exact h

theorem sentInv_fireBody {s : SessionState} (h : SentInv s) :
    SentInv (fireBody s) := by
  unfold fireBody
  split
  · exact sentInv_stop (sentInv_send h)
  · exact sentInv_send h

theorem sentInv_step {s : SessionState} (h : SentInv s) (a : Act) :
    SentInv (step s a) := by
  cases a with
  | inbound e =>
    exact sentInv_of_fields (handle_frame_fields s e).1 (handle_frame_fields s e).2.1 h
  | fireTimer =>
    simp only [step]
    unfold fireResponseTimer
    split
    · exact sentInv_fireBody (sentInv_of_fields rfl rfl h)
    · exact h
  | tick =>
    simp only [step]
    unfold tickCountdown
    split
    · split
      · have h2 := sentInv_send h
        unfold SentInv at h2 ⊢
        simpa using h2
      · exact sentInv_of_fields (by simp) (by simp) h
    · exact h
  | userStop =>
    simp only [step]
    unfold userStopClick
    split
    · exact sentInv_stop h
    · exact h
  | unmount => exact sentInv_stop h
  | iceState st =>
    simp only [step]
    unfold iceConnectionStateChange
    split
    · split
      · exact sentInv_stop (sentInv_of_fields (by simp) (by simp) h)
      · exact sentInv_of_fields (by simp) (by simp) h
    · split
      · exact sentInv_of_fields (by simp) (by simp) h
      · exact h
  | seedBark b =>
    exact sentInv_of_fields rfl rfl h

theorem sentInv_run {s : SessionState} (h : SentInv s) (acts : List Act) :
    SentInv (run s acts) := by
  induction acts generalizing s with
  | nil => exact h
  | cons a rest ih => exact ih (sentInv_step h a)

theorem run_append (s : SessionState) (xs ys : List Act) :
    run s (xs ++ ys) = run (run s xs) ys := by
  simp [run, List.foldl_append]

theorem run_frags (frags : List RTCEvent) :
    (∀ e ∈ frags, (extractText e).isSome ∧ isUserEvent e = false) →
    ∀ s : SessionState,
      (run s (frags.map Act.inbound)).completeResponse = s.completeResponse ++ fragsText frags
    ∧ (run s (frags.map Act.inbound)).responseDeliveries = s.responseDeliveries
    ∧ (run s (frags.map Act.inbound)).messageAlreadySent = s.messageAlreadySent
    ∧ (run s (frags.map Act.inbound)).connectionStatus = s.connectionStatus
    ∧ (frags ≠ [] → (run s (frags.map Act.inbound)).responseTimer.isSome = true) := by
  induction frags with
  | nil =>
    intro _ s
    simp [run, fragsText]
  | cons e rest ih =>
    intro hf s
    obtain ⟨hx, hu⟩ := hf e (by simp)
    obtain ⟨txt, htxt⟩ := Option.isSome_iff_exists.mp hx
    have hrest : ∀ x ∈ rest, (extractText x).isSome ∧ isUserEvent x = false := by
      intro x hxr
      exact hf x (by simp [hxr])
    have hih := ih hrest (handleDataChannelMessage s e)
    have hframe := handle_frame_fields s e
    have hparts := handle_text_fields s e txt htxt hu
    have hrun : run s ((e :: rest).map Act.inbound)
        = run (handleDataChannelMessage s e) (rest.map Act.inbound) := rfl
    rw [hrun]
    refine ⟨?_, ?_, ?_, ?_, ?_⟩
    · rw [hih.1, hparts.1, String.append_assoc]
      simp [fragsText, htxt]
    · rw [hih.2.1, hframe.1]
    · rw [hih.2.2.1, hframe.2.1]
    · rw [hih.2.2.2.1, hframe.2.2.2.1]
    · intro _
      cases rest with
      | nil => simpa [run] using hparts.2
      | cons f fs => exact hih.2.2.2.2 (by simp)

/-- C1 counterexample: the fragment sequence consisting of the single
text-bearing, non-user event `transcript: " "` is buffered, yet when the
silence timer fires nothing is delivered — trimming empties the message, the
guard at line 304 fails, and the delivery count is zero rather than one. -/
theorem C1_cex_whitespace_fragment_undelivered :
    extractText { transcript := some " " } = some " "
  ∧ isUserEvent { transcript := some " " } = false
  ∧ (run startAfterConnect
      [Act.inbound { transcript := some " " }, Act.fireTimer]).responseDeliveries = [] := by
  decide

/-- C1 (amended): for every sequence of text-bearing, non-user inbound events
of one response, if the cleaned concatenation of their extracted texts (in
arrival order: trimmed, JSON-like snippets stripped, immediate repetitions
collapsed) is nonempty, then firing the completion trigger delivers exactly
that message, exactly once; if cleaning empties the text, nothing is ever
delivered (see the counterexample). -/
theorem C1_amended_reassembled_delivery (frags : List RTCEvent)
    (hf : ∀ e ∈ frags, (extractText e).isSome ∧ isUserEvent e = false)
    (hne : cleanMessage (fragsText frags) ≠ "") :
    (run startAfterConnect (frags.map Act.inbound ++ [Act.fireTimer])).responseDeliveries
      = [cleanMessage (fragsText frags)] := by
  have hfr := run_frags frags hf startAfterConnect
  set s1 := run startAfterConnect (frags.map Act.inbound) with hs1
  have hbuf : s1.completeResponse = fragsText frags := by
    rw [hfr.1]
    exact String.empty_append _
  have hdel : s1.responseDeliveries = [] := hfr.2.1.trans rfl
  have hsent : s1.messageAlreadySent = false := hfr.2.2.1.trans rfl
  have hstat : s1.connectionStatus = "connected" := hfr.2.2.2.1.trans rfl
  have hfrne : fragsText frags ≠ "" := fun h0 => hne (by rw [h0]; decide)
  have hfne : frags ≠ [] := by
    intro h0
    apply hfrne
    rw [h0]
    rfl
  have htimer : s1.responseTimer.isSome = true := hfr.2.2.2.2 hfne
  rw [run_append]
  show (fireResponseTimer s1).responseDeliveries = _
  unfold fireResponseTimer
  rw [if_pos htimer]
  have h0buf : SessionState.completeResponse { s1 with responseTimer := none }
      = fragsText frags := hbuf
  have hsend := sendCompleteResponse_delivers
    (s := { s1 with responseTimer := none })
    (by rw [h0buf]; exact hfrne) hsent (by rw [h0buf]; exact hne)
  unfold fireBody
  rw [hsend]
  rw [if_pos (by simp [hstat])]
  rw [stopRealtimeSession_responseDeliveries, sendCompleteResponse_of_empty rfl]
  simp [hdel, hbuf]

/-- C1 witness: the fragments "Bar" then "k!" are delivered as the single
message "Bark!". -/
theorem C1_amended_witness :
    (run startAfterConnect
      ([{ transcript := some "Bar" }, { delta := some "k!" }].map Act.inbound
        ++ [Act.fireTimer])).responseDeliveries = ["Bark!"] :=
  (C1_amended_reassembled_delivery
    [{ transcript := some "Bar" }, { delta := some "k!" }]
    (by decide) (by decide)).trans (by decide)

/-- C2 counterexample: within one session the host's `onMessage` fires twice —
once with the scripted seed bark sent after channel open (lines 201-209) and
once with the assembled response — so "at most once per session" fails for
`onMessage` as a whole. -/
theorem C2_cex_seed_bark_second_invocation :
    onMessageCount (run startAfterConnect
      [Act.seedBark "Woof!", Act.inbound { transcript := some "Bark" },
       Act.fireTimer]) = 2 := by
  decide

/-- C2 (amended): between two `start()` calls the response-delivery path
(`sendCompleteResponse`, gated by `messageAlreadySentRef`) invokes `onMessage`
at most once, whatever the schedule of events, silence-timer and
terminal-marker firings, stops, ICE changes and ticks — but the channel-open
seed bark is an additional `onMessage` invocation outside that latch. -/
theorem C2_amended_response_path_once (acts : List Act) :
    ((run startAfterConnect acts).responseDeliveries).length ≤ 1 :=
  (sentInv_run (by constructor <;> simp [startAfterConnect]) acts).2

/-- C3 counterexample: after the countdown expires (ten ticks from the maximum
of 10 with no inbound events) the transport does not stay open — the countdown
path calls `stopRealtimeSession` (line 105), which closes the data channel and
the peer connection. -/
theorem C3_cex_countdown_closes_transport :
    (run startAfterConnect (List.replicate 10 Act.tick)).pcRef = false
  ∧ (run startAfterConnect (List.replicate 10 Act.tick)).dcRef = false
  ∧ (0 ∈ (run startAfterConnect (List.replicate 10 Act.tick)).timeHistory) := by
  decide

/-- C3 (amended): starting from the maximum of 10, nine one-second ticks with
no inbound events leave one second and the session intact, and the tenth tick
drives the countdown to zero and triggers full teardown via
`stopRealtimeSession`: capture stopped and countdown cancelled, but also the
data channel and peer connection closed and `onStop` fired — the transport
does not stay open. -/
theorem C3_amended_countdown_full_teardown :
    (run startAfterConnect (List.replicate 9 Act.tick)).remainingTime = 1
  ∧ (run startAfterConnect (List.replicate 9 Act.tick)).pcRef = true
  ∧ (run startAfterConnect (List.replicate 9 Act.tick)).countdownRunning = true
  ∧ (0 ∈ (run startAfterConnect (List.replicate 10 Act.tick)).timeHistory)
  ∧ (run startAfterConnect (List.replicate 10 Act.tick)).tracksLive = false
  ∧ (run startAfterConnect (List.replicate 10 Act.tick)).countdownRunning = false
  ∧ (run startAfterConnect (List.replicate 10 Act.tick)).mediaRef = false
  ∧ (run startAfterConnect (List.replicate 10 Act.tick)).pcRef = false
  ∧ (run startAfterConnect (List.replicate 10 Act.tick)).dcRef = false
  ∧ (run startAfterConnect (List.replicate 10 Act.tick)).onStopCount = 1 := by
  decide

/-- C4 counterexample: in the responding phase (capture already stopped, a
fragment buffered, `isProcessingResponse` set) an ICE transition to "failed"
only relabels the status "disconnected": the peer connection and data channel
stay referenced and no teardown (`onStop`) happens, because line 155 guards the
teardown with `isListening`. -/
theorem C4_cex_no_teardown_while_responding :
    (run startAfterConnect
      [Act.inbound { transcript := some "Bark" }, Act.iceState "failed"]).isProcessingResponse
        = true
  ∧ (run startAfterConnect
      [Act.inbound { transcript := some "Bark" }, Act.iceState "failed"]).isListening = false
  ∧ (run startAfterConnect
      [Act.inbound { transcript := some "Bark" }, Act.iceState "failed"]).pcRef = true
  ∧ (run startAfterConnect
      [Act.inbound { transcript := some "Bark" }, Act.iceState "failed"]).dcRef = true
  ∧ (run startAfterConnect
      [Act.inbound { transcript := some "Bark" }, Act.iceState "failed"]).connectionStatus
        = "disconnected"
  ∧ (run startAfterConnect
      [Act.inbound { transcript := some "Bark" }, Act.iceState "failed"]).onStopCount = 0 := by
  decide

/-- C4 (amended): an ICE transition into failed/disconnected/closed always
surfaces the "disconnected" status; it triggers full teardown (transport,
channel and media released, timers cleared) only while the session is still
listening (live), and while it is not listening — in particular while
responding — it releases nothing and notifies nobody. -/
theorem C4_amended_teardown_only_while_listening (s : SessionState) (st : String)
    (hst : st = "failed" ∨ st = "disconnected" ∨ st = "closed") :
    ((step s (Act.iceState st)).connectionStatus = "disconnected")
  ∧ (s.isListening = true →
      (step s (Act.iceState st)).pcRef = false
    ∧ (step s (Act.iceState st)).dcRef = false
    ∧ (step s (Act.iceState st)).mediaRef = false
    ∧ (step s (Act.iceState st)).responseTimer = none
    ∧ (step s (Act.iceState st)).countdownRunning = false)
  ∧ (s.isListening = false →
      (step s (Act.iceState st)).pcRef = s.pcRef
    ∧ (step s (Act.iceState st)).dcRef = s.dcRef
    ∧ (step s (Act.iceState st)).onStopCount = s.onStopCount) := by
  simp only [step]
  unfold iceConnectionStateChange
  rw [if_pos hst]
  constructor
  · split
    · rfl
    · rfl
  · constructor
    · intro hl
      rw [if_pos (by simpa using hl)]
      exact ⟨rfl, rfl, rfl, rfl, rfl⟩
    · intro hl
      rw [if_neg (by simp [hl])]
      exact ⟨rfl, rfl, rfl⟩

/-- C4 witness: with the session live, an ICE "failed" transition closes the
peer connection and surfaces "disconnected". -/
theorem C4_amended_witness :
    (step startAfterConnect (Act.iceState "failed")).connectionStatus = "disconnected"
  ∧ (step startAfterConnect (Act.iceState "failed")).pcRef = false := by
  have h := C4_amended_teardown_only_while_listening startAfterConnect "failed" (Or.inl rfl)
  exact ⟨h.1, (h.2.1 rfl).1⟩

/-- C5: a terminal-marker event (type "response.end" or
"conversation.item.create.complete", or a part typed "final_transcript")
always leaves the single response-end timeout slot armed with the 500 ms grace
timer, replacing (and thus cancelling) any pending one-second silence timer;
firing the slot always leaves it empty, so the two completion triggers are
mutually exclusive and whichever fires first cancels the other. -/
theorem C5_terminal_marker_preempts_silence :
    (∀ (s : SessionState) (e : RTCEvent), isTerminalMarker e = true →
      (handleDataChannelMessage s e).responseTimer = some TimerKind.grace)
  ∧ (∀ s : SessionState, (step s Act.fireTimer).responseTimer = none)
  ∧ timerDelayMs TimerKind.grace = 500
  ∧ timerDelayMs TimerKind.silence = 1000 := by
  refine ⟨?_, ?_, rfl, rfl⟩
  · intro s e ht
    unfold handleDataChannelMessage
    cases hx : extractText e
    · simp [hx, ht]
    · simp [hx, ht]
      split_ifs <;> rfl
  · intro s
    simp only [step]
    unfold fireResponseTimer
    split
    · unfold fireBody
      split
      · rfl
      · rcases sendCompleteResponse_cases
          ({ s with responseTimer := none } : SessionState) with h | h <;> rw [h]
    · next hn =>
      simpa using hn

/-- C5 witness: with a fragment buffered and the silence timer pending, a
"response.end" event re-arms the slot with the grace timer; firing it then
leaves no pending timeout. -/
theorem C5_witness :
    (handleDataChannelMessage
      (run startAfterConnect [Act.inbound { transcript := some "Bark" }])
      { type := some "response.end" }).responseTimer = some TimerKind.grace
  ∧ (step (run startAfterConnect [Act.inbound { transcript := some "Bark" }])
      Act.fireTimer).responseTimer = none := by
  constructor
  · exact C5_terminal_marker_preempts_silence.1
      (run startAfterConnect [Act.inbound { transcript := some "Bark" }])
      { type := some "response.end" } (by decide)
  · exact C5_terminal_marker_preempts_silence.2.1
      (run startAfterConnect [Act.inbound { transcript := some "Bark" }])

/-- C6: text extraction follows the fixed probe order — top-level transcript,
then delta, then text, then part.transcript, then response.output[0].text,
then item.content — with the first truthy match winning; in particular an
item.content array `[(transcript: "woof")]` extracts "woof", a top-level
`delta: "bar"` extracts "bar", and an event with no matching field and no
terminal marker leaves the state completely unchanged. -/
theorem C6_extraction_probe_order :
    extractText { item := some { content := some (ItemContent.arr [{ transcript := some "woof" }]) } } = some "woof"
  ∧ extractText { delta := some "bar" } = some "bar"
  ∧ (∀ (s : SessionState) (e : RTCEvent), extractText e = none →
      isTerminalMarker e = false → handleDataChannelMessage s e = s)
  ∧ (∀ (e : RTCEvent) (t : String), truthy e.transcript = some t →
      extractText e = some t)
  ∧ (∀ (e : RTCEvent) (t : String), truthy e.transcript = none →
      truthy e.delta = some t → extractText e = some t)
  ∧ (∀ (e : RTCEvent) (t : String), truthy e.transcript = none →
      truthy e.delta = none → truthy e.text = some t → extractText e = some t)
  ∧ (∀ (e : RTCEvent) (t : String), truthy e.transcript = none →
      truthy e.delta = none → truthy e.text = none →
      truthy (e.part.bind EvPart.transcript) = some t → extractText e = some t)
  ∧ (∀ (e : RTCEvent) (t : String), truthy e.transcript = none →
      truthy e.delta = none → truthy e.text = none →
      truthy (e.part.bind EvPart.transcript) = none →
      truthy ((e.responseOutput.bind List.head?).bind OutputItem.text) = some t →
      extractText e = some t)
  ∧ (∀ e : RTCEvent, truthy e.transcript = none →
      truthy e.delta = none → truthy e.text = none →
      truthy (e.part.bind EvPart.transcript) = none →
      truthy ((e.responseOutput.bind List.head?).bind OutputItem.text) = none →
      extractText e = itemContentText e) := by
  refine ⟨by decide, by decide, ?_, ?_, ?_, ?_, ?_, ?_, ?_⟩
  · intro s e hx ht
    unfold handleDataChannelMessage
    simp [hx, ht]
  · intro e t h1
    unfold extractText
    simp [h1]
  · intro e t h1 h2
    unfold extractText
    simp [h1, h2]
  · intro e t h1 h2 h3
    unfold extractText
    simp [h1, h2, h3]
  · intro e t h1 h2 h3 h4
    unfold extractText
    simp [h1, h2, h3, h4]
  · intro e t h1 h2 h3 h4 h5
    unfold extractText
    simp [h1, h2, h3, h4, h5]
  · intro e h1 h2 h3 h4 h5
    unfold extractText
    simp [h1, h2, h3, h4, h5]

/-- C6 witness: an event with an id but no text-bearing field and no terminal
marker changes nothing. -/
theorem C6_witness :
    handleDataChannelMessage idleState { eventId := some "evt_9" } = idleState :=
  C6_extraction_probe_order.2.2.1 idleState { eventId := some "evt_9" }
    (by decide) (by decide)

/-- C7: the handler never consults or updates `processedEventIdsRef` — the set
is cleared at session start (line 130) but stays empty forever, so redelivering
the same event (same `event_id`) accumulates its fragment a second time
("Bark" twice gives a buffer of "BarkBark") instead of being skipped. -/
theorem C7_event_ids_never_consulted :
    (∀ (s : SessionState) (e : RTCEvent),
      (handleDataChannelMessage s e).processedEventIds = s.processedEventIds)
  ∧ (∀ s : SessionState, (startPrologue s).processedEventIds = [])
  ∧ (run startAfterConnect
      [Act.inbound { eventId := some "evt_1", transcript := some "Bark" },
       Act.inbound { eventId := some "evt_1", transcript := some "Bark" }]).completeResponse
      = "BarkBark" := by
  refine ⟨?_, ?_, by decide⟩
  · intro s e
    exact (handle_frame_fields s e).2.2.2.2.2.2.2.2.2
  · intro s
    rfl

theorem stop_fields (s : SessionState) :
    (stopRealtimeSession s).pcRef = false
  ∧ (stopRealtimeSession s).dcRef = false
  ∧ (stopRealtimeSession s).mediaRef = false
  ∧ (stopRealtimeSession s).responseTimer = none
  ∧ (stopRealtimeSession s).countdownRunning = false
  ∧ (stopRealtimeSession s).pcCloseCount = s.pcCloseCount + (if s.pcRef then 1 else 0)
  ∧ (stopRealtimeSession s).dcCloseCount = s.dcCloseCount + (if s.dcRef then 1 else 0)
  ∧ (stopRealtimeSession s).trackStopBatches
      = s.trackStopBatches + (if s.mediaRef then 1 else 0)
  ∧ (stopRealtimeSession s).onStopCount = s.onStopCount + 1 := by
  rcases sendCompleteResponse_cases s with h | h <;>
    (unfold stopRealtimeSession; rw [h]) <;>
    exact ⟨rfl, rfl, rfl, rfl, rfl, rfl, rfl, rfl, rfl⟩

/-- C8: every teardown cause — explicit user stop, the countdown timeout, an
ICE failure while live, component unmount — routes through
`stopRealtimeSession`, which flushes a buffered unsent response through the
deliver-once path (`sendCompleteResponse`) before releasing anything, so a
buffered answer whose cleaned text is nonempty is delivered rather than
silently discarded. -/
theorem C8_flush_on_every_teardown (s : SessionState)
    (hbuf : s.completeResponse ≠ "") (hflag : s.messageAlreadySent = false)
    (hclean : cleanMessage s.completeResponse ≠ "") :
    ((stopRealtimeSession s).responseDeliveries
        = s.responseDeliveries ++ [cleanMessage s.completeResponse])
  ∧ ((step s Act.unmount).responseDeliveries
        = s.responseDeliveries ++ [cleanMessage s.completeResponse])
  ∧ (s.isListening = true ∨ s.isProcessingResponse = true →
      (step s Act.userStop).responseDeliveries
        = s.responseDeliveries ++ [cleanMessage s.completeResponse])
  ∧ (s.countdownRunning = true → s.remainingTime ≤ 1 →
      (step s Act.tick).responseDeliveries
        = s.responseDeliveries ++ [cleanMessage s.completeResponse])
  ∧ (s.isListening = true →
      (step s (Act.iceState "failed")).responseDeliveries
        = s.responseDeliveries ++ [cleanMessage s.completeResponse]) := by
  have hsend := sendCompleteResponse_delivers hbuf hflag hclean
  have hbase : (stopRealtimeSession s).responseDeliveries
      = s.responseDeliveries ++ [cleanMessage s.completeResponse] := by
    rw [stopRealtimeSession_responseDeliveries, hsend]
  refine ⟨hbase, hbase, ?_, ?_, ?_⟩
  · intro hcl
    simp only [step]
    unfold userStopClick
    rw [if_pos (by rcases hcl with h | h <;> simp [h])]
    exact hbase
  · intro hcd hrt
    simp only [step]
    unfold tickCountdown
    rw [if_pos hcd, if_pos hrt]
    simp only [deferredReset_responseDeliveries, setTime_responseDeliveries,
      releaseResources_responseDeliveries]
    rw [hsend]
  · intro hl
    simp only [step]
    unfold iceConnectionStateChange
    rw [if_pos (Or.inl rfl), if_pos (by simpa using hl)]
    rw [stopRealtimeSession_responseDeliveries]
    have hsend2 := sendCompleteResponse_delivers
      (s := setStatus "disconnected" s) hbuf hflag hclean
    rw [hsend2]
    rfl

/-- C8 witness: a live session with "Bark" buffered and unsent delivers
["Bark"] both on a direct stop and on the countdown-expiry tick. -/
theorem C8_witness :
    (stopRealtimeSession
      { startAfterConnect with completeResponse := "Bark", remainingTime := 1 }).responseDeliveries
      = ["Bark"]
  ∧ (step { startAfterConnect with completeResponse := "Bark", remainingTime := 1 }
      Act.tick).responseDeliveries = ["Bark"] := by
  have h := C8_flush_on_every_teardown
    { startAfterConnect with completeResponse := "Bark", remainingTime := 1 }
    (by decide) (by decide) (by decide)
  exact ⟨h.1.trans (by decide), (h.2.2.2.1 (by decide) (by decide)).trans (by decide)⟩

/-- C9 counterexample: invoking teardown twice notifies the host twice —
`stopRealtimeSession` always schedules the reset block that calls `onStop`
(line 495), so the second invocation double-notifies even though all resources
were already released. -/
theorem C9_cex_double_stop_double_notifies :
    (stopRealtimeSession (stopRealtimeSession startAfterConnect)).onStopCount = 2 := by
  decide

/-- C9 (amended): teardown is idempotent with respect to resources — a second
`stopRealtimeSession` releases nothing further (the close and track-stop
counters do not move), and one stop leaves no referenced transport, channel or
media and no pending timer; calling stop before any response arrives releases
everything once and delivers nothing — but each invocation notifies the host
via `onStop`, so invoking teardown twice notifies twice. -/
theorem C9_amended_release_idempotent (s : SessionState) :
    ((stopRealtimeSession (stopRealtimeSession s)).pcCloseCount
        = (stopRealtimeSession s).pcCloseCount)
  ∧ ((stopRealtimeSession (stopRealtimeSession s)).dcCloseCount
        = (stopRealtimeSession s).dcCloseCount)
  ∧ ((stopRealtimeSession (stopRealtimeSession s)).trackStopBatches
        = (stopRealtimeSession s).trackStopBatches)
  ∧ ((stopRealtimeSession s).pcRef = false
    ∧ (stopRealtimeSession s).dcRef = false
    ∧ (stopRealtimeSession s).mediaRef = false
    ∧ (stopRealtimeSession s).responseTimer = none
    ∧ (stopRealtimeSession s).countdownRunning = false)
  ∧ (s.completeResponse = "" →
      (stopRealtimeSession s).responseDeliveries = s.responseDeliveries
    ∧ (stopRealtimeSession s).onStopCount = s.onStopCount + 1)
  ∧ ((stopRealtimeSession (stopRealtimeSession s)).onStopCount = s.onStopCount + 2) := by
  have h1 := stop_fields s
  have h2 := stop_fields (stopRealtimeSession s)
  refine ⟨?_, ?_, ?_, ⟨h1.1, h1.2.1, h1.2.2.1, h1.2.2.2.1, h1.2.2.2.2.1⟩, ?_, ?_⟩
  · rw [h2.2.2.2.2.2.1, h1.1]
    simp
  · rw [h2.2.2.2.2.2.2.1, h1.2.1]
    simp
  · rw [h2.2.2.2.2.2.2.2.1, h1.2.2.1]
    simp
  · intro hbe
    refine ⟨?_, h1.2.2.2.2.2.2.2.2⟩
    rw [stopRealtimeSession_responseDeliveries, sendCompleteResponse_of_empty hbe]
  · rw [h2.2.2.2.2.2.2.2.2, h1.2.2.2.2.2.2.2.2]

/-- C9 witness: one stop of a live session releases the transport and leaves no
timer, and delivers nothing when no response was buffered. -/
theorem C9_witness :
    (stopRealtimeSession startAfterConnect).pcRef = false
  ∧ (stopRealtimeSession startAfterConnect).responseDeliveries = [] := by
  have h := C9_amended_release_idempotent startAfterConnect
  exact ⟨h.2.2.2.1.1, (h.2.2.2.2.1 rfl).1.trans rfl⟩

/-- C10: when microphone acquisition fails during start, `onStart` never fires,
the human-readable cause is surfaced, the status passes through "error", the
guaranteed teardown leaves no referenced transport, channel or media, no
pending timer, and nothing delivered. -/
theorem C10_media_error_clean_abort :
    startWithMediaFailure.onStartCount = 0
  ∧ startWithMediaFailure.errorMessage
      = some "Microphone access failed. Check permissions."
  ∧ "error" ∈ startWithMediaFailure.statusHistory
  ∧ startWithMediaFailure.pcRef = false
  ∧ startWithMediaFailure.dcRef = false
  ∧ startWithMediaFailure.mediaRef = false
  ∧ startWithMediaFailure.responseTimer = none
  ∧ startWithMediaFailure.countdownRunning = false
  ∧ startWithMediaFailure.isConnecting = false
  ∧ startWithMediaFailure.responseDeliveries = [] := by
  decide
